import Mathlib

/-!
Verification of the FruitsSearchAutomata run controller (src/app.py).

The Python program is shallowly embedded below:
* `RunState` models the process-wide `state` dict (lines 42–50).
* `automationWorker` models `automation_worker` (lines 269–352).  The worker
  interacts with a concurrent stop flag and with input-injection calls that may
  raise; this nondeterminism is captured by a `WorkerEnv` giving, for each
  read of `state['is_running']`, the value observed, and for each pyautogui
  call, whether it raises.  The worker records a trace of the shared-state
  snapshots after every locked update block, and the browser launches it
  performs.
* `start_automation`, `stop_automation` model the Flask handlers
  (lines 445–534); `save_to_file` / `load_from_file` / `load_fruits` model the
  persistence adapter (lines 169–188, 434–442) over an abstract file store;
  `search_from_file` models the CLI entry (lines 566–598).
-/

set_option autoImplicit false

namespace FruitsBot

/-- The shared run-state record (`state` dict, src/app.py lines 42–50).
`progress` is the Python float, modelled as a rational. -/
structure RunState where
  is_running : Bool
  status : String
  progress : ℚ
  current_search : String
  current_profile : String
  completed : Nat
  total : Nat
deriving DecidableEq, Repr

/-- The initial global state literal (src/app.py lines 42–50). -/
def initialState : RunState :=
  { is_running := false, status := "Ready to start...", progress := 0,
    current_search := "", current_profile := "", completed := 0, total := 0 }

/-- A Chrome profile record (`name`/`directory`/`path` dict).  The worker's
dummy profile stores Python `None` in `directory` and `path`, hence `Option`. -/
structure Profile where
  name : String
  directory : Option String
  path : Option String
deriving DecidableEq, Repr

/-- The dummy profile substituted by the worker when no profiles are given
(src/app.py line 278). -/
def dummyProfile : Profile := { name := "Default", directory := none, path := none }

/-- The profile list the worker actually iterates over (line 277–278). -/
def effectiveProfiles (profiles : List Profile) : List Profile :=
  if profiles.isEmpty then [dummyProfile] else profiles

/-- `total_searches = len(fruits) * len(profiles)` computed after the dummy
substitution (line 280). -/
def totalSearches (fruits : List String) (profiles : List Profile) : Nat :=
  fruits.length * (effectiveProfiles profiles).length

/-- Environment of one worker execution: `running k` is the value of
`state['is_running']` observed at the k-th check (it is written concurrently
only by `/api/stop`), and `raisesAt k` tells whether the k-th pyautogui call
raises (FailSafeException or any other exception). -/
structure WorkerEnv where
  running : Nat → Bool
  raisesAt : Nat → Bool

/-- The environment of an undisturbed run: no stop request, no exception. -/
def benignEnv : WorkerEnv := { running := fun _ => true, raisesAt := fun _ => false }

/-- Instantaneous description of a worker execution: the shared state `st`,
the worker-local `completed` counter, the next check/action indices into the
environment, the trace of shared-state snapshots after each locked update,
the browser launches performed (browser, profile directory), the
exception flag `raised`, and the two loop-break flags. -/
structure WIter where
  st : RunState
  completed : Nat
  chk : Nat
  act : Nat
  trace : List RunState
  launches : List (String × Option String)
  raised : Bool
  brokeI : Bool
  brokeO : Bool
deriving DecidableEq, Repr

/-- One locked update block: mutate the shared state and record the snapshot. -/
def setState (w : WIter) (f : RunState → RunState) : WIter :=
  let s := f w.st
  { w with st := s, trace := w.trace ++ [s] }

/-- One pyautogui call: consumes an action index and raises if the
environment says so. -/
def doAction (env : WorkerEnv) (w : WIter) : WIter :=
  if w.raised then w
  else if env.raisesAt w.act then { w with act := w.act + 1, raised := true }
  else { w with act := w.act + 1 }

/-- Lines 313–315: publish the current search term under the lock, after
consuming the stop-flag check of the loop head. -/
def publishSearch (fruit : String) (w : WIter) : WIter :=
  setState { w with chk := w.chk + 1 } (fun s =>
    { s with current_search := fruit, status := "Searching for: " ++ fruit })

/-- Lines 317–330: the four pyautogui calls of one search (new tab, focus
address bar, type the term, press enter). -/
def typeSequence (env : WorkerEnv) (w : WIter) : WIter :=
  doAction env (doAction env (doAction env (doAction env w)))

/-- Lines 333–336: `completed += 1` and publish `completed` and
`progress = completed / total_searches * 100` under the lock. -/
def bumpCompleted (total : Nat) (w : WIter) : WIter :=
  setState { w with completed := w.completed + 1 } (fun s =>
    { s with completed := w.completed + 1,
             progress := ((w.completed + 1 : Nat) : ℚ) / (total : ℚ) * 100 })

/-- The body of the inner `for fruit in fruits` loop (src/app.py lines
308–340): check the stop flag, publish the current search, perform the four
pyautogui calls — aborting to the exception handler if one raises — then
increment `completed` and publish progress. -/
def searchFruit (env : WorkerEnv) (total : Nat) (w : WIter) (fruit : String) : WIter :=
  if w.raised || w.brokeI then w
  else if !(env.running w.chk) then { w with chk := w.chk + 1, brokeI := true }
  else
    if (typeSequence env (publishSearch fruit w)).raised then
      typeSequence env (publishSearch fruit w)
    else bumpCompleted total (typeSequence env (publishSearch fruit w))

/-- Lines 297–299: publish the current profile under the lock, after
consuming the stop-flag check of the loop head; entering the inner loop
afresh clears the inner break flag. -/
def publishProfile (p : Profile) (w : WIter) : WIter :=
  setState { w with chk := w.chk + 1, brokeI := false } (fun s =>
    { s with current_profile := p.name,
             status := "Opening browser for profile: " ++ p.name })

/-- Line 302: `launch_browser(browser, profile_dir)` — exceptions are caught
inside `launch_browser`, so this only records the launch. -/
def recordLaunch (browser : String) (p : Profile) (w : WIter) : WIter :=
  { w with launches := w.launches ++ [(browser, p.directory)] }

/-- The body of the outer `for profile in profiles` loop (src/app.py lines
289–340): check the stop flag, publish the current profile, launch the
browser for the profile's directory, then run the inner loop. -/
def runProfile (env : WorkerEnv) (total : Nat) (browser : String) (fruits : List String)
    (w : WIter) (p : Profile) : WIter :=
  if w.raised || w.brokeO then w
  else if !(env.running w.chk) then { w with chk := w.chk + 1, brokeO := true }
  else fruits.foldl (searchFruit env total) (recordLaunch browser p (publishProfile p w))

/-- Worker execution starting from shared state `s0`. -/
def initWIter (s0 : RunState) : WIter :=
  { st := s0, completed := 0, chk := 0, act := 0, trace := [], launches := [],
    raised := false, brokeI := false, brokeO := false }

/-- Lines 283–286: reset the shared counters at worker entry. -/
def resetState (total : Nat) (s0 : RunState) : WIter :=
  setState (initWIter s0) (fun s =>
    { s with total := total, completed := 0, progress := 0 })

/-- Lines 346–352: the `finally` cleanup — set `is_running = False`, set the
final status by comparing the worker-local `completed` to `total_searches`,
and clear the ephemeral fields. -/
def cleanupState (total : Nat) (w : WIter) : WIter :=
  setState w (fun s =>
    { s with is_running := false,
             status := if w.completed = total then "Automation completed"
                       else "Automation stopped",
             current_search := "", current_profile := "" })

/-- `automation_worker(fruits, delay, browser, profiles)` (src/app.py lines
269–352): substitute the dummy profile when `profiles` is empty, reset the
shared counters, run the two nested loops inside try/except, and run the
`finally` cleanup. -/
def automationWorker (env : WorkerEnv) (fruits : List String) (delay : ℚ)
    (browser : String) (profiles : List Profile) (s0 : RunState) : WIter :=
  let profiles2 := effectiveProfiles profiles
  let total := fruits.length * profiles2.length
  cleanupState total
    (profiles2.foldl (runProfile env total browser fruits) (resetState total s0))

/-! ## HTTP layer: /api/start, /api/stop -/

/-- Body of a `POST /api/start` request after the `data.get(..., default)`
extraction (src/app.py lines 454–459). -/
structure StartRequest where
  fruits : List String
  delay : ℚ
  browser : String
  selectedProfiles : List Profile
  useDefaultIfNoProfile : Bool
deriving DecidableEq, Repr

/-- Environment read by the start handler: whether the platform is Linux with
no DISPLAY set (line 491), and the profile list that Chrome profile discovery
would return (line 482). -/
structure StartEnv where
  isLinuxNoDisplay : Bool
  available : List Profile
deriving Repr

/-- Arguments handed to a spawned worker thread (lines 503–507). -/
structure SpawnInfo where
  fruits : List String
  delay : ℚ
  browser : String
  profiles : List Profile
deriving DecidableEq, Repr

/-- Process-wide server state: the shared `state` dict, the
`selected_profiles_memory` global and the `worker_thread` global. -/
structure ServerState where
  st : RunState
  selected_profiles_memory : List Profile
  worker_thread : Option SpawnInfo
deriving DecidableEq, Repr

/-- Successful JSON body of `POST /api/start` (lines 510–519). -/
structure StartResponse where
  message : String
  total_searches : Nat
  profiles_in_use : Option (List String)
  warning : Option String
deriving DecidableEq, Repr

/-- Outcome of `POST /api/start`: an HTTP 400 error body, or a 202 response. -/
inductive StartResult where
  | error (msg : String)
  | accepted (resp : StartResponse)
deriving DecidableEq, Repr

/-- Profile resolution of the start handler (src/app.py lines 471–486):
request-body profiles, else remembered applied profiles, else — when
`useDefaultIfNoProfile` — the first discovered profile whose directory is
"Default"; empty for non-chrome browsers. -/
def resolveProfiles (available : List Profile) (memory : List Profile)
    (req : StartRequest) : List Profile :=
  if req.browser = "chrome" then
    if !req.selectedProfiles.isEmpty then req.selectedProfiles
    else if !memory.isEmpty then memory
    else if req.useDefaultIfNoProfile then
      match available.find? (fun p => decide (p.directory = some "Default")) with
      | some d => [d]
      | none => []
    else []
  else []

/-- `start_automation` (src/app.py lines 445–521).  Returns the HTTP result,
the new server state, and the spawned worker's arguments (`none` when no
thread is started). -/
def start_automation (env : StartEnv) (σ : ServerState) (req : StartRequest) :
    StartResult × ServerState × Option SpawnInfo :=
  if σ.st.is_running then
    (.error "Automation is already running", σ, none)
  else if req.fruits.isEmpty then
    (.error "No fruits provided", σ, none)
  else
    let delay2 : ℚ := if req.delay < 0.5 then 3 else req.delay
    let warning0 : Option String :=
      if req.delay < 0.5 then some "Delay was below minimum (0.5s), set to 3.0s"
      else none
    let profiles_to_use := resolveProfiles env.available σ.selected_profiles_memory req
    if req.browser = "chrome" ∧ profiles_to_use.isEmpty then
      (.error "No Chrome profiles selected. Provide selectedProfiles in request body or call /api/apply-profiles first.",
       σ, none)
    else
      let warning : Option String :=
        if env.isLinuxNoDisplay then
          some "Warning: No display detected. Automation may fail on headless systems."
        else warning0
      let st' : RunState :=
        { σ.st with is_running := true, status := "Starting automation...",
                    progress := 0, completed := 0,
                    total := req.fruits.length *
                      (if profiles_to_use.isEmpty then 1 else profiles_to_use.length) }
      let info : SpawnInfo :=
        { fruits := req.fruits, delay := delay2, browser := req.browser,
          profiles := profiles_to_use }
      let resp : StartResponse :=
        { message := "Automation started", total_searches := st'.total,
          profiles_in_use :=
            if !profiles_to_use.isEmpty ∧ req.browser = "chrome" then
              some (profiles_to_use.map (fun p => p.name))
            else none,
          warning := warning }
      (.accepted resp, { σ with st := st', worker_thread := some info }, some info)

/-- `stop_automation` (src/app.py lines 524–534): sets `is_running := false`
and a stopping status when a run is active, else does nothing; always returns
the message "Stopping". -/
def stop_automation (σ : ServerState) : String × ServerState :=
  if σ.st.is_running then
    ("Stopping",
     { σ with st := { σ.st with is_running := false, status := "Stopping automation..." } })
  else ("Stopping", σ)

/-! ## Persistence adapter -/

/-- Content of a stored file: a successfully serialized value, or bytes that
`json.load` rejects. -/
inductive FileContent (α : Type) where
  | good (v : α)
  | corrupt
deriving DecidableEq, Repr

/-- Abstract file store: filename to file content, `none` when no file exists. -/
def FStore (α : Type) := String → Option (FileContent α)

/-- `save_to_file` (src/app.py lines 169–176): writes the value; an IOError
(`ok = false`) is caught and logged, leaving the store unchanged. -/
def save_to_file {α : Type} (ok : Bool) (fs : FStore α) (filename : String)
    (data : α) : FStore α :=
  if ok then fun f => if f = filename then some (.good data) else fs f
  else fs

/-- `load_from_file` (src/app.py lines 179–188): returns the parsed value, or
`none` when the file is missing or `json.load` raises. -/
def load_from_file {α : Type} (fs : FStore α) (filename : String) : Option α :=
  match fs filename with
  | some (.good v) => some v
  | some .corrupt => none
  | none => none

/-- `GET /api/load` (src/app.py lines 434–442): the fruits list of the
response body — the loaded list, or `[]` when the load was absent. -/
def load_fruits (fs : FStore (List String)) : List String :=
  (load_from_file fs "fruits.json").getD []

/-! ## CLI mode -/

/-- `search_from_file` (src/app.py lines 566–598): load the terms, return
early when missing or empty, resolve profile names against discovery, and run
one synchronous worker from the fresh global state.  Returns the finished
worker execution, or `none` when the early return fired. -/
def search_from_file (fs : FStore (List String)) (available : List Profile)
    (env : WorkerEnv) (filename : String) (delay : ℚ) (browser : String)
    (profile_names : List String) : Option WIter :=
  match load_from_file fs filename with
  | none => none
  | some fruits =>
    if fruits.isEmpty then none
    else
      let profiles :=
        if browser = "chrome" ∧ !profile_names.isEmpty then
          profile_names.filterMap (fun nm => available.find? (fun p => decide (p.name = nm)))
        else []
      some (automationWorker env fruits delay browser profiles initialState)

/-! ## Run invariants -/

/-- The `completed` field never decreases along a sequence of snapshots. -/
def traceMono (l : List RunState) : Prop :=
  List.Chain' (fun a b => a.completed ≤ b.completed) l

lemma mem_of_getLast? {α : Type} {l : List α} {a : α} (h : a ∈ l.getLast?) : a ∈ l := by
  obtain ⟨hne, rfl⟩ := List.mem_getLast?_eq_getLast h
  exact List.getLast_mem hne

lemma traceMono_snoc {l : List RunState} {s : RunState} (h : traceMono l)
    (hb : ∀ x ∈ l, x.completed ≤ s.completed) : traceMono (l ++ [s]) := by
  rw [traceMono, List.chain'_append]
  refine ⟨h, List.chain'_singleton s, ?_⟩
  intro x hx y hy
  simp only [List.head?_cons, Option.mem_def, Option.some.injEq] at hy
  subst hy
  exact hb x (mem_of_getLast? hx)

/-- Invariant maintained across the worker's execution: the shared
`completed` field mirrors the worker-local counter, the shared `total` field
is the run's total, every recorded snapshot carries that total with a
`completed` at most the current counter, and the snapshots are monotone. -/
structure WOK (total : Nat) (w : WIter) : Prop where
  stc : w.st.completed = w.completed
  stt : w.st.total = total
  bound : ∀ s ∈ w.trace, s.total = total ∧ s.completed ≤ w.completed
  mono : traceMono w.trace

lemma WOK.setState_keep {total : Nat} {w : WIter} (h : WOK total w)
    {f : RunState → RunState} (hfc : (f w.st).completed = w.st.completed)
    (hft : (f w.st).total = w.st.total) : WOK total (setState w f) := by
  refine ⟨?_, ?_, ?_, ?_⟩
  · show (f w.st).completed = w.completed
    rw [hfc, h.stc]
  · show (f w.st).total = total
    rw [hft, h.stt]
  · show ∀ s ∈ w.trace ++ [f w.st], s.total = total ∧ s.completed ≤ w.completed
    intro s hs
    rcases List.mem_append.mp hs with hs | hs
    · exact h.bound s hs
    · rcases List.mem_singleton.mp hs with rfl
      exact ⟨by rw [hft, h.stt], by rw [hfc, h.stc]⟩
  · show traceMono (w.trace ++ [f w.st])
    refine traceMono_snoc h.mono ?_
    intro x hx
    rw [hfc, h.stc]
    exact (h.bound x hx).2

lemma WOK.setState_inc {total : Nat} {w : WIter} (h : WOK total w) {c : Nat}
    (hc : w.completed ≤ c) {f : RunState → RunState}
    (hfc : (f w.st).completed = c) (hft : (f w.st).total = w.st.total) :
    WOK total (setState { w with completed := c } f) := by
  refine ⟨?_, ?_, ?_, ?_⟩
  · show (f w.st).completed = c
    exact hfc
  · show (f w.st).total = total
    rw [hft, h.stt]
  · show ∀ s ∈ w.trace ++ [f w.st], s.total = total ∧ s.completed ≤ c
    intro s hs
    rcases List.mem_append.mp hs with hs | hs
    · exact ⟨(h.bound s hs).1, le_trans (h.bound s hs).2 hc⟩
    · rcases List.mem_singleton.mp hs with rfl
      exact ⟨by rw [hft, h.stt], le_of_eq hfc⟩
  · show traceMono (w.trace ++ [f w.st])
    refine traceMono_snoc h.mono ?_
    intro x hx
    rw [hfc]
    exact le_trans (h.bound x hx).2 hc

lemma doAction_core (env : WorkerEnv) (w : WIter) :
    (doAction env w).st = w.st ∧ (doAction env w).trace = w.trace ∧
    (doAction env w).completed = w.completed ∧
    (doAction env w).launches = w.launches ∧
    (doAction env w).brokeI = w.brokeI ∧ (doAction env w).brokeO = w.brokeO := by
  unfold doAction
  split_ifs <;> exact ⟨rfl, rfl, rfl, rfl, rfl, rfl⟩

lemma WOK.doActionStep {total : Nat} {w : WIter} (h : WOK total w)
    (env : WorkerEnv) : WOK total (doAction env w) := by
  obtain ⟨h1, h2, h3, -, -, -⟩ := doAction_core env w
  refine ⟨?_, ?_, ?_, ?_⟩
  · rw [h1, h3]; exact h.stc
  · rw [h1]; exact h.stt
  · rw [h2, h3]; exact h.bound
  · rw [h2]; exact h.mono

lemma typeSequence_core (env : WorkerEnv) (w : WIter) :
    (typeSequence env w).st = w.st ∧ (typeSequence env w).trace = w.trace ∧
    (typeSequence env w).completed = w.completed ∧
    (typeSequence env w).launches = w.launches ∧
    (typeSequence env w).brokeI = w.brokeI ∧ (typeSequence env w).brokeO = w.brokeO := by
  unfold typeSequence
  obtain ⟨a1, a2, a3, a4, a5, a6⟩ := doAction_core env w
  obtain ⟨b1, b2, b3, b4, b5, b6⟩ := doAction_core env (doAction env w)
  obtain ⟨c1, c2, c3, c4, c5, c6⟩ := doAction_core env (doAction env (doAction env w))
  obtain ⟨d1, d2, d3, d4, d5, d6⟩ :=
    doAction_core env (doAction env (doAction env (doAction env w)))
  exact ⟨by rw [d1, c1, b1, a1], by rw [d2, c2, b2, a2], by rw [d3, c3, b3, a3],
         by rw [d4, c4, b4, a4], by rw [d5, c5, b5, a5], by rw [d6, c6, b6, a6]⟩

lemma WOK.typeSequenceStep {total : Nat} {w : WIter} (h : WOK total w)
    (env : WorkerEnv) : WOK total (typeSequence env w) :=
  (((h.doActionStep env).doActionStep env).doActionStep env).doActionStep env

lemma WOK.publishSearchStep {total : Nat} {w : WIter} (h : WOK total w)
    (fruit : String) : WOK total (publishSearch fruit w) := by
  have h' : WOK total { w with chk := w.chk + 1 } :=
    ⟨h.stc, h.stt, h.bound, h.mono⟩
  exact h'.setState_keep rfl rfl

lemma publishSearch_completed (fruit : String) (w : WIter) :
    (publishSearch fruit w).completed = w.completed := rfl

lemma WOK.bumpCompletedStep {total : Nat} {w : WIter} (h : WOK total w) :
    WOK total (bumpCompleted total w) :=
  h.setState_inc (Nat.le_succ _) rfl rfl

lemma bumpCompleted_completed (total : Nat) (w : WIter) :
    (bumpCompleted total w).completed = w.completed + 1 := rfl

lemma searchFruit_wok {total : Nat} (env : WorkerEnv) (fruit : String) {w : WIter}
    (h : WOK total w) :
    WOK total (searchFruit env total w fruit) ∧
    w.completed ≤ (searchFruit env total w fruit).completed ∧
    (searchFruit env total w fruit).completed ≤ w.completed + 1 := by
  unfold searchFruit
  by_cases hA : (w.raised || w.brokeI) = true
  · rw [if_pos hA]
    exact ⟨h, le_rfl, Nat.le_succ _⟩
  · rw [if_neg hA]
    by_cases hB : (!(env.running w.chk)) = true
    · rw [if_pos hB]
      exact ⟨⟨h.stc, h.stt, h.bound, h.mono⟩, le_rfl, Nat.le_succ _⟩
    · rw [if_neg hB]
      have hts : WOK total (typeSequence env (publishSearch fruit w)) :=
        (h.publishSearchStep fruit).typeSequenceStep env
      have hcc : (typeSequence env (publishSearch fruit w)).completed = w.completed := by
        rw [(typeSequence_core env (publishSearch fruit w)).2.2.1,
            publishSearch_completed]
      by_cases hC : (typeSequence env (publishSearch fruit w)).raised = true
      · rw [if_pos hC]
        exact ⟨hts, le_of_eq hcc.symm, by rw [hcc]; exact Nat.le_succ _⟩
      · rw [if_neg hC]
        refine ⟨hts.bumpCompletedStep, ?_, ?_⟩
        · rw [bumpCompleted_completed, hcc]
          exact Nat.le_succ _
        · rw [bumpCompleted_completed, hcc]

lemma foldl_searchFruit_wok {total : Nat} (env : WorkerEnv) :
    ∀ (l : List String) (w : WIter), WOK total w →
      WOK total (l.foldl (searchFruit env total) w) ∧
      w.completed ≤ (l.foldl (searchFruit env total) w).completed ∧
      (l.foldl (searchFruit env total) w).completed ≤ w.completed + l.length
  | [], w, h => ⟨h, le_rfl, le_of_eq rfl⟩
  | fruit :: l, w, h => by
    obtain ⟨h1, h2, h3⟩ := searchFruit_wok env fruit h
    obtain ⟨g1, g2, g3⟩ := foldl_searchFruit_wok env l (searchFruit env total w fruit) h1
    refine ⟨g1, le_trans h2 g2, ?_⟩
    calc (l.foldl (searchFruit env total) (searchFruit env total w fruit)).completed
        ≤ (searchFruit env total w fruit).completed + l.length := g3
      _ ≤ (w.completed + 1) + l.length := Nat.add_le_add_right h3 _
      _ = w.completed + (fruit :: l).length := by
          simp [List.length_cons]
          omega

lemma WOK.publishProfileStep {total : Nat} {w : WIter} (h : WOK total w)
    (p : Profile) : WOK total (publishProfile p w) := by
  have h' : WOK total { w with chk := w.chk + 1, brokeI := false } :=
    ⟨h.stc, h.stt, h.bound, h.mono⟩
  exact h'.setState_keep rfl rfl

lemma WOK.recordLaunchStep {total : Nat} {w : WIter} (h : WOK total w)
    (browser : String) (p : Profile) : WOK total (recordLaunch browser p w) :=
  ⟨h.stc, h.stt, h.bound, h.mono⟩

lemma runProfile_wok {total : Nat} (env : WorkerEnv) (browser : String)
    (fruits : List String) (p : Profile) {w : WIter} (h : WOK total w) :
    WOK total (runProfile env total browser fruits w p) ∧
    w.completed ≤ (runProfile env total browser fruits w p).completed ∧
    (runProfile env total browser fruits w p).completed ≤ w.completed + fruits.length := by
  unfold runProfile
  by_cases hA : (w.raised || w.brokeO) = true
  · rw [if_pos hA]
    exact ⟨h, le_rfl, Nat.le_add_right _ _⟩
  · rw [if_neg hA]
    by_cases hB : (!(env.running w.chk)) = true
    · rw [if_pos hB]
      exact ⟨⟨h.stc, h.stt, h.bound, h.mono⟩, le_rfl, Nat.le_add_right _ _⟩
    · rw [if_neg hB]
      have h2 : WOK total (recordLaunch browser p (publishProfile p w)) :=
        (h.publishProfileStep p).recordLaunchStep browser p
      have hc2 : (recordLaunch browser p (publishProfile p w)).completed = w.completed := rfl
      obtain ⟨g1, g2, g3⟩ :=
        foldl_searchFruit_wok env fruits (recordLaunch browser p (publishProfile p w)) h2
      rw [hc2] at g2 g3
      exact ⟨g1, g2, g3⟩

lemma foldl_runProfile_wok {total : Nat} (env : WorkerEnv) (browser : String)
    (fruits : List String) :
    ∀ (ps : List Profile) (w : WIter), WOK total w →
      WOK total (ps.foldl (runProfile env total browser fruits) w) ∧
      w.completed ≤ (ps.foldl (runProfile env total browser fruits) w).completed ∧
      (ps.foldl (runProfile env total browser fruits) w).completed
        ≤ w.completed + ps.length * fruits.length
  | [], w, h => ⟨h, le_rfl, by simp⟩
  | p :: ps, w, h => by
    obtain ⟨h1, h2, h3⟩ := runProfile_wok env browser fruits p h
    obtain ⟨g1, g2, g3⟩ :=
      foldl_runProfile_wok env browser fruits ps (runProfile env total browser fruits w p) h1
    refine ⟨g1, le_trans h2 g2, ?_⟩
    calc (ps.foldl (runProfile env total browser fruits)
            (runProfile env total browser fruits w p)).completed
        ≤ (runProfile env total browser fruits w p).completed + ps.length * fruits.length := g3
      _ ≤ (w.completed + fruits.length) + ps.length * fruits.length :=
          Nat.add_le_add_right h3 _
      _ = w.completed + (p :: ps).length * fruits.length := by
          simp [List.length_cons]
          ring

lemma resetState_wok (total : Nat) (s0 : RunState) :
    WOK total (resetState total s0) ∧ (resetState total s0).completed = 0 := by
  refine ⟨⟨rfl, rfl, ?_, ?_⟩, rfl⟩
  · intro s hs
    rcases List.mem_singleton.mp hs with rfl
    exact ⟨rfl, le_rfl⟩
  · exact List.chain'_singleton _

lemma WOK.cleanupStep {total : Nat} {w : WIter} (h : WOK total w) :
    WOK total (cleanupState total w) :=
  h.setState_keep rfl rfl

lemma cleanupState_completed (total : Nat) (w : WIter) :
    (cleanupState total w).completed = w.completed := rfl

/-- Master invariant of one worker execution: the invariant `WOK` holds of
the final configuration, with the run total `totalSearches fruits profiles`,
and the final counter never exceeds that total. -/
lemma automationWorker_wok (env : WorkerEnv) (fruits : List String) (delay : ℚ)
    (browser : String) (profiles : List Profile) (s0 : RunState) :
    WOK (totalSearches fruits profiles)
      (automationWorker env fruits delay browser profiles s0) ∧
    (automationWorker env fruits delay browser profiles s0).completed
      ≤ totalSearches fruits profiles := by
  obtain ⟨h0, hc0⟩ :=
    resetState_wok (fruits.length * (effectiveProfiles profiles).length) s0
  obtain ⟨h1, -, hc1⟩ :=
    foldl_runProfile_wok env browser fruits (effectiveProfiles profiles)
      (resetState (fruits.length * (effectiveProfiles profiles).length) s0) h0
  rw [hc0] at hc1
  constructor
  · exact h1.cleanupStep
  · show (cleanupState _ _).completed ≤ _
    rw [cleanupState_completed]
    calc _ ≤ 0 + (effectiveProfiles profiles).length * fruits.length := hc1
      _ = totalSearches fruits profiles := by
          rw [Nat.zero_add, totalSearches, Nat.mul_comm]

/-! ## Characterization of the start handler -/

lemma effectiveProfiles_length (l : List Profile) :
    (effectiveProfiles l).length = max 1 l.length := by
  cases l with
  | nil => simp [effectiveProfiles]
  | cons a t =>
    simp only [effectiveProfiles, List.isEmpty_cons, if_neg Bool.false_ne_true,
      List.length_cons]
    rw [Nat.max_eq_right (Nat.succ_le_succ (Nat.zero_le _))]

lemma effectiveProfiles_pos (l : List Profile) : 0 < (effectiveProfiles l).length := by
  rw [effectiveProfiles_length]
  exact lt_of_lt_of_le Nat.zero_lt_one (le_max_left _ _)

lemma ite_isEmpty_max (l : List Profile) :
    (if l.isEmpty then 1 else l.length) = max 1 l.length := by
  cases l with
  | nil => simp
  | cons a t =>
    simp only [List.isEmpty_cons, if_neg Bool.false_ne_true, List.length_cons]
    rw [Nat.max_eq_right (Nat.succ_le_succ (Nat.zero_le _))]

lemma totalSearches_eq (fruits : List String) (profiles : List Profile) :
    totalSearches fruits profiles = fruits.length * max 1 profiles.length := by
  rw [totalSearches, effectiveProfiles_length]

/-- The profile list the start handler resolves for a request. -/
def resolvedOf (env : StartEnv) (σ : ServerState) (req : StartRequest) : List Profile :=
  resolveProfiles env.available σ.selected_profiles_memory req

/-- The delay handed to the worker by an accepted start (lines 465–469). -/
def acceptedDelay (req : StartRequest) : ℚ :=
  if req.delay < 0.5 then 3 else req.delay

/-- The warning of an accepted start response (lines 465–469 and 491–492):
the display warning overwrites the delay warning. -/
def acceptedWarning (env : StartEnv) (req : StartRequest) : Option String :=
  if env.isLinuxNoDisplay then
    some "Warning: No display detected. Automation may fail on headless systems."
  else if req.delay < 0.5 then some "Delay was below minimum (0.5s), set to 3.0s"
  else none

/-- The `total` stored by an accepted start (line 500). -/
def acceptedTotal (env : StartEnv) (σ : ServerState) (req : StartRequest) : Nat :=
  req.fruits.length *
    (if (resolvedOf env σ req).isEmpty then 1 else (resolvedOf env σ req).length)

/-- The worker arguments spawned by an accepted start (lines 503–507). -/
def acceptedInfo (env : StartEnv) (σ : ServerState) (req : StartRequest) : SpawnInfo :=
  { fruits := req.fruits, delay := acceptedDelay req, browser := req.browser,
    profiles := resolvedOf env σ req }

/-- The server state left by an accepted start (lines 495–508). -/
def acceptedState (env : StartEnv) (σ : ServerState) (req : StartRequest) : ServerState :=
  { σ with
    st := { σ.st with is_running := true, status := "Starting automation...",
                      progress := 0, completed := 0,
                      total := acceptedTotal env σ req },
    worker_thread := some (acceptedInfo env σ req) }

/-- The response body of an accepted start (lines 510–519). -/
def acceptedResp (env : StartEnv) (σ : ServerState) (req : StartRequest) : StartResponse :=
  { message := "Automation started", total_searches := acceptedTotal env σ req,
    profiles_in_use :=
      if !(resolvedOf env σ req).isEmpty ∧ req.browser = "chrome" then
        some ((resolvedOf env σ req).map (fun p => p.name))
      else none,
    warning := acceptedWarning env req }

lemma start_automation_accepted (env : StartEnv) (σ : ServerState) (req : StartRequest)
    (h1 : σ.st.is_running = false) (h2 : req.fruits.isEmpty = false)
    (h3 : ¬(req.browser = "chrome" ∧ (resolvedOf env σ req).isEmpty = true)) :
    start_automation env σ req =
      (.accepted (acceptedResp env σ req), acceptedState env σ req,
       some (acceptedInfo env σ req)) := by
  rw [start_automation, if_neg (by simp [h1]), if_neg (by simp [h2]),
      if_neg (by simpa [resolvedOf] using h3)]
  rfl

lemma start_automation_already_running (env : StartEnv) (σ : ServerState)
    (req : StartRequest) (h : σ.st.is_running = true) :
    start_automation env σ req = (.error "Automation is already running", σ, none) := by
  rw [start_automation, if_pos h]

lemma start_automation_no_profiles (env : StartEnv) (σ : ServerState) (req : StartRequest)
    (h1 : σ.st.is_running = false) (h2 : req.fruits.isEmpty = false)
    (h3 : req.browser = "chrome") (h4 : (resolvedOf env σ req).isEmpty = true) :
    start_automation env σ req =
      (.error "No Chrome profiles selected. Provide selectedProfiles in request body or call /api/apply-profiles first.",
       σ, none) := by
  rw [start_automation, if_neg (by simp [h1]), if_neg (by simp [h2]),
      if_pos (by exact ⟨h3, by simpa [resolvedOf] using h4⟩)]

/-- Inversion: any start call that spawns a worker went through the accepted
branch, so its outputs are the accepted normal forms. -/
lemma start_spawn_inv {env : StartEnv} {σ : ServerState} {req : StartRequest}
    {r : StartResult} {σ' : ServerState} {info : SpawnInfo}
    (h : start_automation env σ req = (r, σ', some info)) :
    σ.st.is_running = false ∧ req.fruits.isEmpty = false ∧
    ¬(req.browser = "chrome" ∧ (resolvedOf env σ req).isEmpty = true) ∧
    r = .accepted (acceptedResp env σ req) ∧ σ' = acceptedState env σ req ∧
    info = acceptedInfo env σ req := by
  cases h1 : σ.st.is_running with
  | true => rw [start_automation_already_running env σ req h1] at h; simp at h
  | false =>
    cases h2 : req.fruits.isEmpty with
    | true =>
      rw [start_automation, if_neg (by simp [h1]), if_pos h2] at h
      simp at h
    | false =>
      by_cases h3 : req.browser = "chrome" ∧ (resolvedOf env σ req).isEmpty = true
      · rw [start_automation_no_profiles env σ req h1 h2 h3.1 h3.2] at h
        simp at h
      · rw [start_automation_accepted env σ req h1 h2 h3] at h
        simp only [Prod.mk.injEq, Option.some.injEq] at h
        obtain ⟨hr, hσ, hi⟩ := h
        exact ⟨rfl, rfl, h3, hr.symm, hσ.symm, hi.symm⟩

/-! ## Undisturbed runs -/

/-- What a stretch of an exception-free, stop-free run preserves: no
exception, no inner break, the outer break flag, the launches, the shared
`current_profile`, and the trace only grows by snapshots carrying the current
profile. -/
def BenignCarry (w w' : WIter) : Prop :=
  w'.raised = false ∧ w'.brokeI = false ∧ w'.brokeO = w.brokeO ∧
  w'.launches = w.launches ∧ w'.st.current_profile = w.st.current_profile ∧
  ∃ t, w'.trace = w.trace ++ t ∧ ∀ s ∈ t, s.current_profile = w.st.current_profile

lemma BenignCarry.compose {w1 w2 w3 : WIter} (h1 : BenignCarry w1 w2)
    (h2 : BenignCarry w2 w3) : BenignCarry w1 w3 := by
  obtain ⟨-, -, ho1, hl1, hp1, t1, ht1, he1⟩ := h1
  obtain ⟨hr2, hb2, ho2, hl2, hp2, t2, ht2, he2⟩ := h2
  refine ⟨hr2, hb2, ho2.trans ho1, hl2.trans hl1, hp2.trans hp1, t1 ++ t2, ?_, ?_⟩
  · rw [ht2, ht1, List.append_assoc]
  · intro s hs
    rcases List.mem_append.mp hs with hs | hs
    · exact he1 s hs
    · exact (he2 s hs).trans hp1

lemma doAction_benign_raised (w : WIter) :
    (doAction benignEnv w).raised = w.raised := by
  unfold doAction benignEnv
  split_ifs with h1 h2
  · rfl
  · exact absurd h2 (by simp)
  · rfl

lemma typeSequence_benign_raised (w : WIter) :
    (typeSequence benignEnv w).raised = w.raised := by
  unfold typeSequence
  rw [doAction_benign_raised, doAction_benign_raised, doAction_benign_raised,
      doAction_benign_raised]

lemma searchFruit_benign (total : Nat) (fruit : String) {w : WIter}
    (hr : w.raised = false) (hb : w.brokeI = false) :
    BenignCarry w (searchFruit benignEnv total w fruit) ∧
    (searchFruit benignEnv total w fruit).completed = w.completed + 1 := by
  have hA : (w.raised || w.brokeI) ≠ true := by simp [hr, hb]
  have hB : (!(benignEnv.running w.chk)) ≠ true := by simp [benignEnv]
  have hrts : (typeSequence benignEnv (publishSearch fruit w)).raised = false := by
    rw [typeSequence_benign_raised]
    exact hr
  rw [searchFruit, if_neg hA, if_neg hB, if_neg (by simp [hrts])]
  obtain ⟨hst, htr, hco, hla, hbi, hbo⟩ :=
    typeSequence_core benignEnv (publishSearch fruit w)
  constructor
  · refine ⟨hrts, ?_, ?_, ?_, ?_, ?_⟩
    · show (typeSequence benignEnv (publishSearch fruit w)).brokeI = false
      rw [hbi]; exact hb
    · show (typeSequence benignEnv (publishSearch fruit w)).brokeO = w.brokeO
      rw [hbo]; rfl
    · show (typeSequence benignEnv (publishSearch fruit w)).launches = w.launches
      rw [hla]; rfl
    · show (bumpCompleted total (typeSequence benignEnv (publishSearch fruit w))).st.current_profile
        = w.st.current_profile
      show ((typeSequence benignEnv (publishSearch fruit w)).st).current_profile
        = w.st.current_profile
      rw [hst]
      rfl
    · refine ⟨[(publishSearch fruit w).st,
               (bumpCompleted total (typeSequence benignEnv (publishSearch fruit w))).st], ?_, ?_⟩
      · show (typeSequence benignEnv (publishSearch fruit w)).trace ++ [_] = _
        rw [htr]
        show (w.trace ++ [(publishSearch fruit w).st]) ++ [_] = _
        rw [List.append_assoc]
        rfl
      · intro s hs
        rcases List.mem_cons.mp hs with rfl | hs
        · rfl
        · rcases List.mem_singleton.mp hs with rfl
          show ((typeSequence benignEnv (publishSearch fruit w)).st).current_profile = _
          rw [hst]
          rfl
  · show (typeSequence benignEnv (publishSearch fruit w)).completed + 1 = w.completed + 1
    rw [hco, publishSearch_completed]

lemma foldl_searchFruit_benign (total : Nat) :
    ∀ (l : List String) (w : WIter), w.raised = false → w.brokeI = false →
      BenignCarry w (l.foldl (searchFruit benignEnv total) w) ∧
      (l.foldl (searchFruit benignEnv total) w).completed = w.completed + l.length
  | [], w, hr, hb => by
    refine ⟨⟨hr, hb, rfl, rfl, rfl, [], (List.append_nil _).symm, by simp⟩, rfl⟩
  | fruit :: l, w, hr, hb => by
    obtain ⟨h1, h2⟩ := searchFruit_benign total fruit hr hb
    obtain ⟨g1, g2⟩ :=
      foldl_searchFruit_benign total l (searchFruit benignEnv total w fruit) h1.1 h1.2.1
    refine ⟨h1.compose g1, ?_⟩
    rw [List.foldl_cons, g2, h2, List.length_cons]
    omega

/-- One undisturbed worker run with an empty profile list: the single dummy
profile is used, the browser is launched exactly once with no profile
directory, every term is searched, and every intermediate snapshot between
the reset and the cleanup reports profile "Default". -/
lemma automationWorker_benign_empty (fruits : List String) (delay : ℚ)
    (browser : String) (s0 : RunState) :
    (automationWorker benignEnv fruits delay browser [] s0).launches
        = [(browser, none)] ∧
    (automationWorker benignEnv fruits delay browser [] s0).completed
        = fruits.length ∧
    ((((automationWorker benignEnv fruits delay browser [] s0).trace.drop 1).dropLast).all
        (fun s => s.current_profile == "Default")) = true := by
  have hworker : automationWorker benignEnv fruits delay browser [] s0 =
      cleanupState (fruits.length * 1)
        (List.foldl (runProfile benignEnv (fruits.length * 1) browser fruits)
          (resetState (fruits.length * 1) s0) [dummyProfile]) := rfl
  set T := fruits.length * 1 with hT
  set r := resetState T s0 with hrr
  have hrp : List.foldl (runProfile benignEnv T browser fruits) r [dummyProfile]
      = runProfile benignEnv T browser fruits r dummyProfile := rfl
  set base := recordLaunch browser dummyProfile (publishProfile dummyProfile r) with hbase
  have hrun : runProfile benignEnv T browser fruits r dummyProfile
      = fruits.foldl (searchFruit benignEnv T) base := by
    rw [runProfile, if_neg (by simp [hrr, resetState, initWIter, setState]),
        if_neg (by simp [benignEnv])]
  obtain ⟨hcar, hcomp⟩ := foldl_searchFruit_benign T fruits base rfl rfl
  obtain ⟨-, -, -, hla, hpr, t, htr, hel⟩ := hcar
  rw [hworker, hrp, hrun]
  refine ⟨?_, ?_, ?_⟩
  · show (fruits.foldl (searchFruit benignEnv T) base).launches = [(browser, none)]
    rw [hla]
    rfl
  · show (fruits.foldl (searchFruit benignEnv T) base).completed = fruits.length
    rw [hcomp]
    show 0 + fruits.length = fruits.length
    exact Nat.zero_add _
  · show ((((fruits.foldl (searchFruit benignEnv T) base).trace
        ++ [_]).drop 1).dropLast).all (fun s => s.current_profile == "Default") = true
    rw [htr]
    have hbt : base.trace = [(resetState T s0).st, (publishProfile dummyProfile r).st] := rfl
    rw [hbt]
    simp only [List.cons_append, List.nil_append, List.drop_succ_cons, List.drop_zero]
    rw [← List.cons_append, List.dropLast_concat, List.all_eq_true]
    intro s hs
    rcases List.mem_cons.mp hs with rfl | hs
    · rfl
    · have := hel s hs
      rw [this]
      rfl

/-! ## Claim theorems -/

/-- C1: for every start request accepted by POST /api/start, the `total`
field of RunState immediately after start returns equals
|terms| × max(1, |profiles|) for the resolved profile list; the response
reports that same value, and the background worker's own recomputation of
the total (its shared `total` field, at any point of any execution) yields
the same value. -/
theorem claim_C1 (env : StartEnv) (σ : ServerState) (req : StartRequest)
    (resp : StartResponse) (σ' : ServerState) (info : SpawnInfo)
    (h : start_automation env σ req = (.accepted resp, σ', some info)) :
    σ'.st.total = req.fruits.length * max 1 info.profiles.length ∧
    resp.total_searches = σ'.st.total ∧
    info.fruits = req.fruits ∧
    ∀ (wenv : WorkerEnv) (s0 : RunState),
      (automationWorker wenv info.fruits info.delay info.browser info.profiles s0).st.total
        = σ'.st.total := by
  obtain ⟨-, -, -, hr, hσ, hi⟩ := start_spawn_inv h
  injection hr with hresp
  subst hσ
  subst hi
  refine ⟨?_, ?_, rfl, ?_⟩
  · show acceptedTotal env σ req
      = req.fruits.length * max 1 (resolvedOf env σ req).length
    rw [acceptedTotal, ite_isEmpty_max]
  · rw [hresp]
    rfl
  · intro wenv s0
    rw [(automationWorker_wok wenv (acceptedInfo env σ req).fruits
      (acceptedInfo env σ req).delay (acceptedInfo env σ req).browser
      (acceptedInfo env σ req).profiles s0).1.stt]
    show totalSearches req.fruits (resolvedOf env σ req) = acceptedTotal env σ req
    rw [totalSearches_eq, acceptedTotal, ite_isEmpty_max]

/-- C2: throughout any single run of the background worker — for every
environment of stop-flag observations and injection exceptions — the
sequence of recorded shared-state snapshots, from the reset at worker entry
to the terminal cleanup, is non-decreasing in `completed`, and `completed`
never exceeds the `total` field. -/
theorem claim_C2 (env : WorkerEnv) (fruits : List String) (delay : ℚ)
    (browser : String) (profiles : List Profile) (s0 : RunState) :
    traceMono (automationWorker env fruits delay browser profiles s0).trace ∧
    ∀ s ∈ (automationWorker env fruits delay browser profiles s0).trace,
      s.completed ≤ s.total := by
  obtain ⟨hwok, hle⟩ := automationWorker_wok env fruits delay browser profiles s0
  refine ⟨hwok.mono, fun s hs => ?_⟩
  obtain ⟨h1, h2⟩ := hwok.bound s hs
  rw [h1]
  exact le_trans h2 hle

/-- C3: every execution of the background worker — stopped, interrupted by
any exception, or run to completion — ends with `is_running = false`, empty
`current_search` and `current_profile`, and a final status that reads
"Automation completed" exactly when the completed count equals the total,
and "Automation stopped" otherwise. -/
theorem claim_C3 (env : WorkerEnv) (fruits : List String) (delay : ℚ)
    (browser : String) (profiles : List Profile) (s0 : RunState) :
    (automationWorker env fruits delay browser profiles s0).st.is_running = false ∧
    (automationWorker env fruits delay browser profiles s0).st.current_search = "" ∧
    (automationWorker env fruits delay browser profiles s0).st.current_profile = "" ∧
    (automationWorker env fruits delay browser profiles s0).st.status =
      (if (automationWorker env fruits delay browser profiles s0).st.completed
          = (automationWorker env fruits delay browser profiles s0).st.total
       then "Automation completed" else "Automation stopped") := by
  have h0 := (resetState_wok (fruits.length * (effectiveProfiles profiles).length) s0).1
  obtain ⟨h1, -, -⟩ :=
    foldl_runProfile_wok env browser fruits (effectiveProfiles profiles)
      (resetState (fruits.length * (effectiveProfiles profiles).length) s0) h0
  refine ⟨rfl, rfl, rfl, ?_⟩
  show (if (List.foldl (runProfile env (fruits.length * (effectiveProfiles profiles).length)
              browser fruits)
            (resetState (fruits.length * (effectiveProfiles profiles).length) s0)
            (effectiveProfiles profiles)).completed
          = fruits.length * (effectiveProfiles profiles).length
        then "Automation completed" else "Automation stopped")
    = (if (List.foldl (runProfile env (fruits.length * (effectiveProfiles profiles).length)
              browser fruits)
            (resetState (fruits.length * (effectiveProfiles profiles).length) s0)
            (effectiveProfiles profiles)).st.completed
          = (List.foldl (runProfile env (fruits.length * (effectiveProfiles profiles).length)
              browser fruits)
            (resetState (fruits.length * (effectiveProfiles profiles).length) s0)
            (effectiveProfiles profiles)).st.total
       then "Automation completed" else "Automation stopped")
  rw [h1.stc, h1.stt]

/-- C4: a POST /api/start received while `is_running` is true fails with the
AlreadyRunning error, leaves every part of the server state (RunState, the
remembered profile selection, the worker-thread reference) unchanged, and
spawns no background task. -/
theorem claim_C4 (env : StartEnv) (σ : ServerState) (req : StartRequest)
    (h : σ.st.is_running = true) :
    start_automation env σ req = (.error "Automation is already running", σ, none) :=
  start_automation_already_running env σ req h

/-- C5: for every accepted start request, a delay below 0.5 s is replaced by
3.0 s for the run and the response carries a warning; a delay at or above
0.5 s is used unchanged. -/
theorem claim_C5 (env : StartEnv) (σ : ServerState) (req : StartRequest)
    (resp : StartResponse) (σ' : ServerState) (info : SpawnInfo)
    (h : start_automation env σ req = (.accepted resp, σ', some info)) :
    (req.delay < 0.5 → info.delay = 3 ∧ resp.warning.isSome = true) ∧
    (0.5 ≤ req.delay → info.delay = req.delay) := by
  obtain ⟨-, -, -, hr, -, hi⟩ := start_spawn_inv h
  injection hr with hresp
  subst hi
  constructor
  · intro hlt
    refine ⟨?_, ?_⟩
    · show acceptedDelay req = 3
      rw [acceptedDelay, if_pos hlt]
    · rw [hresp]
      show (acceptedWarning env req).isSome = true
      rw [acceptedWarning]
      cases hd : env.isLinuxNoDisplay with
      | true => rfl
      | false =>
        rw [if_neg (by simp), if_pos hlt]
        rfl
  · intro hge
    show acceptedDelay req = req.delay
    rw [acceptedDelay, if_neg (not_lt.mpr hge)]

/-- C6: for chrome start requests, profile resolution prefers a non-empty
request-body selection, then a non-empty remembered selection, then — when
`useDefaultIfNoProfile` is set — a single discovered profile with directory
"Default"; when the resolved list is still empty the request fails with the
NoProfilesSelected error. -/
theorem claim_C6 (env : StartEnv) (σ : ServerState) (req : StartRequest)
    (hc : req.browser = "chrome") :
    (req.selectedProfiles ≠ [] → resolvedOf env σ req = req.selectedProfiles) ∧
    (req.selectedProfiles = [] → σ.selected_profiles_memory ≠ [] →
      resolvedOf env σ req = σ.selected_profiles_memory) ∧
    (req.selectedProfiles = [] → σ.selected_profiles_memory = [] →
      req.useDefaultIfNoProfile = true →
      (∃ d ∈ env.available, d.directory = some "Default") →
      ∃ d ∈ env.available, d.directory = some "Default" ∧ resolvedOf env σ req = [d]) ∧
    (resolvedOf env σ req = [] → σ.st.is_running = false → req.fruits.isEmpty = false →
      start_automation env σ req =
        (.error "No Chrome profiles selected. Provide selectedProfiles in request body or call /api/apply-profiles first.",
         σ, none)) := by
  refine ⟨?_, ?_, ?_, ?_⟩
  · intro hne
    simp [resolvedOf, resolveProfiles, hc, hne]
  · intro h1 h2
    simp [resolvedOf, resolveProfiles, hc, h1, h2]
  · intro h1 h2 h3 hex
    have hsome : (env.available.find?
        (fun p => decide (p.directory = some "Default"))).isSome := by
      rw [List.find?_isSome]
      obtain ⟨d, hd, hdir⟩ := hex
      exact ⟨d, hd, by simp [hdir]⟩
    obtain ⟨d, hd⟩ := Option.isSome_iff_exists.mp hsome
    refine ⟨d, List.mem_of_find?_eq_some hd, by simpa using List.find?_some hd, ?_⟩
    simp [resolvedOf, resolveProfiles, hc, h1, h2, h3, hd]
  · intro h1 h2 h3
    exact start_automation_no_profiles env σ req h2 h3 hc (by simp [h1])

/-- C7: POST /api/stop is idempotent: when a run is active it sets
`is_running := false` with a stopping status, when no run is active it
changes nothing, it always answers the same acknowledgement, and a repeated
call is a no-op returning that same acknowledgement. -/
theorem claim_C7 (σ : ServerState) :
    (stop_automation σ).1 = "Stopping" ∧
    ((stop_automation σ).2).st.is_running = false ∧
    (σ.st.is_running = true →
      (stop_automation σ).2 =
        { σ with
          st := { σ.st with is_running := false, status := "Stopping automation..." } }) ∧
    (σ.st.is_running = false → (stop_automation σ).2 = σ) ∧
    stop_automation ((stop_automation σ).2) = ("Stopping", (stop_automation σ).2) := by
  cases hb : σ.st.is_running with
  | true =>
    refine ⟨?_, ?_, ?_, ?_, ?_⟩ <;> simp [stop_automation, hb]
  | false =>
    refine ⟨?_, ?_, ?_, ?_, ?_⟩ <;> simp [stop_automation, hb]

/-- C8: saving a value to a key and loading the same key returns the value
saved; loading a missing or corrupt file yields an absent result — surfaced
as an empty list by GET /api/load — and never an error. -/
theorem claim_C8 (α : Type) (fs : FStore α) (k : String) (v : α) :
    load_from_file (save_to_file true fs k v) k = some v ∧
    (fs k = none → load_from_file fs k = none) ∧
    (fs k = some .corrupt → load_from_file fs k = none) ∧
    ∀ gs : FStore (List String),
      load_from_file gs "fruits.json" = none → load_fruits gs = [] := by
  refine ⟨?_, ?_, ?_, ?_⟩
  · simp [save_to_file, load_from_file]
  · intro h
    simp [load_from_file, h]
  · intro h
    simp [load_from_file, h]
  · intro gs h
    simp [load_fruits, h]

/-- C9: the progress computation's divisor is the worker's total search
count; on every path that reaches the worker it is positive: the total is
positive whenever the term list is non-empty, any spawned worker gets a
non-empty term list with a positive total, a CLI run that proceeds has a
positive shared total, and the worker's shared total always equals
`totalSearches`. -/
theorem claim_C9 :
    (∀ (fruits : List String) (profiles : List Profile), fruits ≠ [] →
       0 < totalSearches fruits profiles) ∧
    (∀ (env : StartEnv) (σ : ServerState) (req : StartRequest) (r : StartResult)
       (σ' : ServerState) (info : SpawnInfo),
       start_automation env σ req = (r, σ', some info) →
       info.fruits ≠ [] ∧ 0 < totalSearches info.fruits info.profiles) ∧
    (∀ (fs : FStore (List String)) (available : List Profile) (wenv : WorkerEnv)
       (filename : String) (delay : ℚ) (browser : String) (names : List String)
       (w : WIter),
       search_from_file fs available wenv filename delay browser names = some w →
       0 < w.st.total) ∧
    (∀ (wenv : WorkerEnv) (fruits : List String) (delay : ℚ) (browser : String)
       (profiles : List Profile) (s0 : RunState),
       (automationWorker wenv fruits delay browser profiles s0).st.total
         = totalSearches fruits profiles) := by
  have hpos : ∀ (fruits : List String) (profiles : List Profile), fruits ≠ [] →
      0 < totalSearches fruits profiles := by
    intro fruits profiles h
    rw [totalSearches]
    exact Nat.mul_pos (List.length_pos.mpr h) (effectiveProfiles_pos profiles)
  refine ⟨hpos, ?_, ?_, ?_⟩
  · intro env σ req r σ' info h
    obtain ⟨-, h2, -, -, -, hi⟩ := start_spawn_inv h
    subst hi
    have hne : req.fruits ≠ [] := by
      intro hnil
      rw [hnil] at h2
      exact absurd h2 (by simp)
    exact ⟨hne, hpos req.fruits (resolvedOf env σ req) hne⟩
  · intro fs available wenv filename delay browser names w h
    rw [search_from_file] at h
    cases hl : load_from_file fs filename with
    | none =>
      rw [hl] at h
      simp at h
    | some fruits =>
      rw [hl] at h
      dsimp only [] at h
      cases he : fruits.isEmpty with
      | true =>
        rw [he] at h
        simp at h
      | false =>
        rw [he] at h
        simp only [Bool.false_eq_true, if_false, Option.some.injEq] at h
        have hne : fruits ≠ [] := by
          intro hnil
          rw [hnil] at he
          exact absurd he (by simp)
        rw [← h,
          (automationWorker_wok wenv fruits delay browser _ initialState).1.stt]
        exact hpos fruits _ hne
  · intro wenv fruits delay browser profiles s0
    exact (automationWorker_wok wenv fruits delay browser profiles s0).1.stt

/-- C10: an undisturbed worker run given an empty profile list substitutes
the single dummy profile named "Default" with an absent directory, launches
the browser exactly once with no profile-selection argument, performs
exactly one search per term, and every snapshot between the reset and the
cleanup reports `current_profile = "Default"`. -/
theorem claim_C10 (fruits : List String) (delay : ℚ) (browser : String) (s0 : RunState) :
    effectiveProfiles [] = [dummyProfile] ∧
    dummyProfile.name = "Default" ∧ dummyProfile.directory = none ∧
    (automationWorker benignEnv fruits delay browser [] s0).launches
      = [(browser, none)] ∧
    (automationWorker benignEnv fruits delay browser [] s0).completed = fruits.length ∧
    ((((automationWorker benignEnv fruits delay browser [] s0).trace.drop 1).dropLast).all
      (fun s => s.current_profile == "Default")) = true := by
  obtain ⟨h1, h2, h3⟩ := automationWorker_benign_empty fruits delay browser s0
  exact ⟨rfl, rfl, rfl, h1, h2, h3⟩

/-! ## Concrete witnesses -/

/-- A discovered secondary Chrome profile used in witness scenarios. -/
def profW : Profile :=
  { name := "Work", directory := some "Profile 1",
    path := some "/home/user/.config/google-chrome/Profile 1" }

/-- Witness environment: display present, no discovered profiles needed. -/
def envW : StartEnv := { isLinuxNoDisplay := false, available := [] }

/-- Witness server state: fresh process, nothing running. -/
def serverW : ServerState :=
  { st := initialState, selected_profiles_memory := [], worker_thread := none }

/-- Witness server state with an active run. -/
def runningServerW : ServerState :=
  { st := { initialState with is_running := true }, selected_profiles_memory := [],
    worker_thread := none }

/-- Witness start request: two terms, one explicit profile. -/
def reqW : StartRequest :=
  { fruits := ["apple", "banana"], delay := 2, browser := "chrome",
    selectedProfiles := [profW], useDefaultIfNoProfile := false }

/-- Witness start request with a delay below the 0.5 s floor. -/
def reqSlowW : StartRequest := { reqW with delay := 0.1 }

/-- Witness file store with no files. -/
def fsW : FStore (List String) := fun _ => none

/-- The reset snapshot of the one-term, no-profile witness run. -/
def resetSnapW : RunState :=
  { is_running := false, status := "Ready to start...", progress := 0,
    current_search := "", current_profile := "", completed := 0, total := 1 }

theorem claim_C1_witness :
    (acceptedState envW serverW reqW).st.total
      = reqW.fruits.length * max 1 (acceptedInfo envW serverW reqW).profiles.length :=
  (claim_C1 envW serverW reqW (acceptedResp envW serverW reqW)
    (acceptedState envW serverW reqW) (acceptedInfo envW serverW reqW)
    (start_automation_accepted envW serverW reqW rfl rfl (by decide))).1

theorem claim_C2_witness : resetSnapW.completed ≤ resetSnapW.total :=
  (claim_C2 benignEnv ["apple"] 3 "chrome" [] initialState).2 resetSnapW
    (List.mem_cons_self _ _)

theorem claim_C4_witness :
    start_automation envW runningServerW reqW
      = (.error "Automation is already running", runningServerW, none) :=
  claim_C4 envW runningServerW reqW rfl

theorem claim_C5_witness :
    (acceptedInfo envW serverW reqSlowW).delay = 3 ∧
    (acceptedResp envW serverW reqSlowW).warning.isSome = true :=
  (claim_C5 envW serverW reqSlowW (acceptedResp envW serverW reqSlowW)
    (acceptedState envW serverW reqSlowW) (acceptedInfo envW serverW reqSlowW)
    (start_automation_accepted envW serverW reqSlowW rfl rfl (by decide))).1
    (by show (0.1 : ℚ) < 0.5; norm_num)

theorem claim_C6_witness : resolvedOf envW serverW reqW = reqW.selectedProfiles :=
  (claim_C6 envW serverW reqW rfl).1 (by decide)

theorem claim_C7_witness : (stop_automation serverW).2 = serverW :=
  (claim_C7 serverW).2.2.2.1 rfl

theorem claim_C8_witness :
    load_from_file (save_to_file true fsW "fruits.json" ["apple"]) "fruits.json"
      = some ["apple"] ∧
    load_from_file fsW "missing.json" = (none : Option (List String)) :=
  ⟨(claim_C8 (List String) fsW "fruits.json" ["apple"]).1,
   (claim_C8 (List String) fsW "missing.json" []).2.1 rfl⟩

theorem claim_C9_witness :
    (acceptedInfo envW serverW reqW).fruits ≠ [] ∧
    0 < totalSearches (acceptedInfo envW serverW reqW).fruits
        (acceptedInfo envW serverW reqW).profiles :=
  claim_C9.2.1 envW serverW reqW (.accepted (acceptedResp envW serverW reqW))
    (acceptedState envW serverW reqW) (acceptedInfo envW serverW reqW)
    (start_automation_accepted envW serverW reqW rfl rfl (by decide))

end FruitsBot
